import Mathlib

/-!
Verification of the rest-to-smtp relay service.

The repository bundles parallel implementations of one contract.  The Go
service file contains two historical variants of `EmailService`:

* `V1` — string-typed `smtp_port`; hand-rolled SMTP over `net/smtp` with a
  port switch (SMTPS / STARTTLS / plain), a pre-flight `TestSMTPConnection`,
  and a 30-second `select` deadline in `SendEmail`.
* `V2` — integer-typed `smtp_port`; the go-mail based variant whose
  `ValidateEmailRequest` additionally requires `body` and a sender address
  containing an at-sign.

The Gin handler (`internal/handlers/email.go`) is modelled over the V1
service, the only variant providing all three methods it calls
(`ValidateEmailRequest`, `TestSMTPConnection`, `SendEmail`).

Strings are compared and searched through their character lists so that all
definitions evaluate by kernel reduction.  `strings.Contains(s, "@")` with a
single-character pattern is embedded as `s.data.contains '@'`; multi-character
substring search is `containsSub`.  Network I/O, the wall clock and the JSON
transport are oracles: dial errors, operation errors and elapsed time are
explicit parameters, and log records carry only the request-derived fields
(timestamps and durations come from the clock, not from the request).
-/

/-- Does `pat` occur as a contiguous sublist of the second list? -/
def hasSub (pat : List Char) : List Char → Bool
  | [] => pat.isEmpty
  | c :: rest => pat.isPrefixOf (c :: rest) || hasSub pat rest

/-- Substring test on strings, via their character lists. -/
def containsSub (s pat : String) : Bool :=
  hasSub pat.data s.data

/-- A message "names the supported set" of ports when the digits of all three
supported ports occur in it. -/
def mentionsSupportedPorts (s : String) : Bool :=
  containsSub s "25" && containsSub s "587" && containsSub s "465"

/-- First-failure-wins evaluation of an ordered list of validation rules,
each a failing-condition paired with its error-message function. -/
def firstError {α : Type} (rules : List ((α → Bool) × (α → String))) (x : α) : Option String :=
  match rules with
  | [] => none
  | (cond, msg) :: rest => if cond x then some (msg x) else firstError rest x

namespace V1

/-- Request shape bound by the string-port service variant
(`smtp_port` is a string, as in its `ValidateEmailRequest` / `SendEmail`). -/
structure EmailRequest where
  smtp_host : String
  smtp_port : String
  username : String
  password : String
  «to» : String
  subject : String
  body : String
deriving DecidableEq

/-- `ValidateEmailRequest` of the string-port variant: presence checks in
source order, then recipient at-sign, then host dot, then the port set.
`none` means the request is valid; `some msg` is the returned error. -/
def ValidateEmailRequest (req : EmailRequest) : Option String :=
  if req.smtp_host = "" then some "smtp_host is required"
  else if req.smtp_port = "" then some "smtp_port is required"
  else if req.username = "" then some "username is required"
  else if req.password = "" then some "password is required"
  else if req.«to» = "" then some "to is required"
  else if req.subject = "" then some "subject is required"
  else if !(req.«to».data.contains '@') then some "invalid email address format"
  else if !(req.smtp_host.data.contains '.') then some "invalid SMTP host format"
  else if req.smtp_port ≠ "25" ∧ req.smtp_port ≠ "587" ∧ req.smtp_port ≠ "465" then
    some "invalid SMTP port. Use 25, 587, or 465"
  else none

/-- Wire-level actions of one relay attempt, in order. -/
inductive SmtpEvent where
  | tlsConnect (host port : String)
  | tcpConnect (host port : String)
  | startTls (host : String)
  | authPlain (user pass host : String)
  | mailFrom (sender : String)
  | rcptTo (rcpt : String)
  | dataMsg (msg : String)
  | quit
deriving DecidableEq

/-- The message composed at the top of `SendEmail`:
`fmt.Sprintf("To: %s\r\nSubject: %s\r\n\r\n%s", req.To, req.Subject, req.Body)`. -/
def buildMessage (req : EmailRequest) : String :=
  "To: " ++ req.«to» ++ "\r\nSubject: " ++ req.subject ++ "\r\n\r\n" ++ req.body

/-- Happy-path wire trace of `sendEmailSMTPS` (port 465): TLS dial first,
then AUTH PLAIN, envelope, data, quit. -/
def sendEmailSMTPS (req : EmailRequest) (msg : String) : List SmtpEvent :=
  [ .tlsConnect req.smtp_host req.smtp_port,
    .authPlain req.username req.password req.smtp_host,
    .mailFrom req.username,
    .rcptTo req.«to»,
    .dataMsg msg,
    .quit ]

/-- Happy-path wire trace of `sendEmailSTARTTLS` (port 587): plain TCP dial,
STARTTLS upgrade, then AUTH PLAIN, envelope, data, quit. -/
def sendEmailSTARTTLS (req : EmailRequest) (msg : String) : List SmtpEvent :=
  [ .tcpConnect req.smtp_host req.smtp_port,
    .startTls req.smtp_host,
    .authPlain req.username req.password req.smtp_host,
    .mailFrom req.username,
    .rcptTo req.«to»,
    .dataMsg msg,
    .quit ]

/-- Happy-path wire trace of `sendEmailPlain` (port 25, `smtp.SendMail`):
cleartext TCP dial, then — because Go's `smtp.SendMail` upgrades
opportunistically — a STARTTLS upgrade exactly when the server advertises
the extension (`starttlsAdvertised`, a server-side oracle), then AUTH PLAIN
(`SendMail` with a non-nil auth fails before authenticating when AUTH is not
advertised, so the happy path always authenticates), envelope, data, quit. -/
def sendEmailPlain (req : EmailRequest) (msg : String) (starttlsAdvertised : Bool) :
    List SmtpEvent :=
  .tcpConnect req.smtp_host req.smtp_port ::
    ((if starttlsAdvertised then [.startTls req.smtp_host] else []) ++
      [ .authPlain req.username req.password req.smtp_host,
        .mailFrom req.username,
        .rcptTo req.«to»,
        .dataMsg msg,
        .quit ])

/-- The port switch of `SendEmail`: the trace of the selected protocol path,
or the `unsupported port` error for any other port (no connection is opened
in that branch).  `starttlsAdvertised` is the server-side oracle consulted
only by the `smtp.SendMail` path on port 25. -/
def SendEmail (req : EmailRequest) (starttlsAdvertised : Bool) :
    Except String (List SmtpEvent) :=
  if req.smtp_port = "465" then .ok (sendEmailSMTPS req (buildMessage req))
  else if req.smtp_port = "587" then .ok (sendEmailSTARTTLS req (buildMessage req))
  else if req.smtp_port = "25" then
    .ok (sendEmailPlain req (buildMessage req) starttlsAdvertised)
  else .error ("unsupported port: " ++ req.smtp_port)

/-- Transport-security modes named by the specification. -/
inductive TransportMode where
  | smtps
  | starttls
  | plain
  | unsupported
deriving DecidableEq

/-- The mode the `SendEmail` switch selects for a port value. -/
def transportForPort (p : String) : TransportMode :=
  if p = "465" then .smtps
  else if p = "587" then .starttls
  else if p = "25" then .plain
  else .unsupported

/-- Is the event a STARTTLS upgrade? -/
def isStartTlsEvent : SmtpEvent → Bool
  | .startTls _ => true
  | _ => false

/-- Is the event a TLS-wrapped dial? -/
def isTlsConnectEvent : SmtpEvent → Bool
  | .tlsConnect _ _ => true
  | _ => false

/-- Transport-security mode actually exhibited by a relay result: an error is
the unsupported case; a trace opening with a TLS dial is SMTPS; a trace
containing a STARTTLS upgrade is STARTTLS; anything else is cleartext. -/
def securityMode (r : Except String (List SmtpEvent)) : TransportMode :=
  match r with
  | .error _ => .unsupported
  | .ok t =>
    match t.head? with
    | some (.tlsConnect _ _) => .smtps
    | _ => if t.any isStartTlsEvent then .starttls else .plain

/-- First `MAIL FROM` address of a trace. -/
def envelopeSender : List SmtpEvent → Option String
  | [] => none
  | .mailFrom s :: _ => some s
  | _ :: rest => envelopeSender rest

/-- First `RCPT TO` address of a trace. -/
def envelopeRecipient : List SmtpEvent → Option String
  | [] => none
  | .rcptTo r :: _ => some r
  | _ :: rest => envelopeRecipient rest

/-- First DATA payload of a trace. -/
def dataPayload : List SmtpEvent → Option String
  | [] => none
  | .dataMsg m :: _ => some m
  | _ :: rest => dataPayload rest

/-- The deadline `context.WithTimeout(ctx, 30*time.Second)` installs, in
milliseconds. -/
def timeoutLimitMs : Nat := 30000

/-- One structured log record: message plus request-derived fields. -/
abbrev LogRecord := String × List (String × String)

/-- The per-port `slog.Info` emitted inside the `SendEmail` goroutine. -/
def usingLog (req : EmailRequest) : List LogRecord :=
  if req.smtp_port = "465" then
    [("Using SMTPS connection (port 465)", [("host", req.smtp_host)])]
  else if req.smtp_port = "587" then
    [("Using STARTTLS connection (port 587)", [("host", req.smtp_host)])]
  else if req.smtp_port = "25" then
    [("Using plain SMTP connection (port 25)", [("host", req.smtp_host)])]
  else []

/-- The `select` at the bottom of `SendEmail`: if the context deadline fires
first (`timedOut`), the call returns the fixed timeout error regardless of
the worker's own outcome `opErr`; otherwise it returns the worker's outcome.
Returns the error (or `none` for success) and the emitted log records. -/
def SendEmailRun (req : EmailRequest) (timedOut : Bool) (opErr : Option String) :
    Option String × List LogRecord :=
  let startLog : LogRecord :=
    ("Email send attempt started",
      [("to", req.«to»), ("subject", req.subject), ("smtp_host", req.smtp_host),
       ("smtp_port", req.smtp_port), ("username", req.username)])
  if timedOut then
    (some "SMTP connection timeout after 30 seconds",
      [startLog] ++ usingLog req ++
        [("Email send timeout",
          [("to", req.«to»), ("subject", req.subject), ("smtp_host", req.smtp_host),
           ("smtp_port", req.smtp_port), ("timeout_seconds", "30")])])
  else
    match opErr with
    | some e =>
      (some e,
        [startLog] ++ usingLog req ++
          [("Email send failed",
            [("to", req.«to»), ("subject", req.subject), ("smtp_host", req.smtp_host),
             ("smtp_port", req.smtp_port), ("error", e)])])
    | none =>
      (none,
        [startLog] ++ usingLog req ++
          [("Email sent successfully",
            [("to", req.«to»), ("subject", req.subject), ("smtp_host", req.smtp_host),
             ("smtp_port", req.smtp_port)])])

/-- `SendEmail` outcome as a function of the worker's elapsed time: the
deadline branch of the `select` wins exactly when the attempt exceeds the
30-second ceiling. -/
def SendEmailAt (req : EmailRequest) (elapsedMs : Nat) (opErr : Option String) :
    Option String × List LogRecord :=
  SendEmailRun req (decide (elapsedMs > timeoutLimitMs)) opErr

/-- `host:port` address string. -/
def addrOf (req : EmailRequest) : String :=
  req.smtp_host ++ ":" ++ req.smtp_port

/-- `TestSMTPConnection`: pre-flight dial keyed on the port, with the dial
outcome supplied as the oracle `dialErr`.  Returns the error (or `none`) and
the emitted log records. -/
def TestSMTPConnection (req : EmailRequest) (dialErr : Option String) :
    Option String × List LogRecord :=
  let startLog : LogRecord :=
    ("SMTP connection test started",
      [("smtp_host", req.smtp_host), ("smtp_port", req.smtp_port),
       ("address", addrOf req)])
  let doneLog : LogRecord :=
    ("SMTP connection test completed",
      [("smtp_host", req.smtp_host), ("smtp_port", req.smtp_port)])
  if req.smtp_port = "465" then
    match dialErr with
    | some e =>
      (some ("cannot connect to SMTPS server " ++ addrOf req ++ ": " ++ e),
        [startLog,
         ("SMTPS connection test failed",
          [("smtp_host", req.smtp_host), ("smtp_port", req.smtp_port), ("error", e)])])
    | none =>
      (none,
        [startLog, ("SMTPS connection test successful", [("host", req.smtp_host)]), doneLog])
  else if req.smtp_port = "587" ∨ req.smtp_port = "25" then
    match dialErr with
    | some e =>
      (some ("cannot connect to SMTP server " ++ addrOf req ++ ": " ++ e),
        [startLog,
         ("SMTP connection test failed",
          [("smtp_host", req.smtp_host), ("smtp_port", req.smtp_port), ("error", e)])])
    | none =>
      (none,
        [startLog, ("SMTP connection test successful", [("host", req.smtp_host)]), doneLog])
  else
    (some ("unsupported port: " ++ req.smtp_port),
      [startLog, ("Unsupported SMTP port", [("port", req.smtp_port)])])

/-- JSON response body shape (`models.EmailResponse`). -/
structure EmailResponse where
  success : Bool
  message : String
deriving DecidableEq

/-- Outcome of one request through the Gin handler: HTTP status, the single
JSON response, whether `SendEmail` was invoked, and the log records. -/
structure HandlerResult where
  status : Nat
  response : EmailResponse
  relayInvoked : Bool
  logs : List LogRecord
deriving DecidableEq

/-- The handler `SendEmail` of `internal/handlers/email.go`, modelled after a
successful JSON bind: validate, pre-flight connection test, relay, with the
source's status codes, response bodies and log records.  `dialErr` is the
pre-flight dial oracle; `timedOut` and `opErr` drive the relay model. -/
def HandleSendEmail (clientIP userAgent : String) (req : EmailRequest)
    (dialErr : Option String) (timedOut : Bool) (opErr : Option String) : HandlerResult :=
  let receivedLog : LogRecord :=
    ("Email send request received", [("client_ip", clientIP), ("user_agent", userAgent)])
  let boundLog : LogRecord :=
    ("Email request validated",
      [("client_ip", clientIP), ("to", req.«to»), ("subject", req.subject),
       ("smtp_host", req.smtp_host), ("smtp_port", req.smtp_port),
       ("username", req.username)])
  match ValidateEmailRequest req with
  | some e =>
    { status := 400
      response := { success := false, message := e }
      relayInvoked := false
      logs := [receivedLog, boundLog,
        ("Email request validation failed",
          [("client_ip", clientIP), ("to", req.«to»), ("subject", req.subject),
           ("error", e)])] }
  | none =>
    match TestSMTPConnection req dialErr with
    | (some e, tlogs) =>
      { status := 400
        response := { success := false, message := "SMTP connection failed: " ++ e }
        relayInvoked := false
        logs := [receivedLog, boundLog] ++ tlogs ++
          [("SMTP connection test failed in handler",
            [("client_ip", clientIP), ("to", req.«to»), ("subject", req.subject),
             ("smtp_host", req.smtp_host), ("error", e)])] }
    | (none, tlogs) =>
      match SendEmailRun req timedOut opErr with
      | (some e, slogs) =>
        { status := 500
          response := { success := false, message := "Failed to send email: " ++ e }
          relayInvoked := true
          logs := [receivedLog, boundLog] ++ tlogs ++ slogs ++
            [("Email sending failed in handler",
              [("client_ip", clientIP), ("to", req.«to»), ("subject", req.subject),
               ("smtp_host", req.smtp_host), ("error", e)])] }
      | (none, slogs) =>
        { status := 200
          response := { success := true, message := "Email sent successfully" }
          relayInvoked := true
          logs := [receivedLog, boundLog] ++ tlogs ++ slogs ++
            [("Email request completed successfully",
              [("client_ip", clientIP), ("to", req.«to»), ("subject", req.subject),
               ("smtp_host", req.smtp_host)])] }

end V1

namespace V2

/-- `models.EmailRequest`: the integer-port request shape bound from JSON. -/
structure EmailRequest where
  smtp_host : String
  smtp_port : Int
  username : String
  password : String
  «to» : String
  subject : String
  body : String
deriving DecidableEq

/-- `ValidateEmailRequest` of the go-mail variant: presence checks (including
`body`), host dot, port membership via the `allowedPorts` loop, then
recipient and sender at-sign checks. -/
def ValidateEmailRequest (req : EmailRequest) : Option String :=
  if req.smtp_host = "" then some "smtp_host is required"
  else if req.smtp_port = 0 then some "smtp_port is required"
  else if req.username = "" then some "username is required"
  else if req.password = "" then some "password is required"
  else if req.«to» = "" then some "to is required"
  else if req.subject = "" then some "subject is required"
  else if req.body = "" then some "body is required"
  else if !(req.smtp_host.data.contains '.') then some "invalid SMTP host format"
  else if !([25, 587, 465].contains req.smtp_port) then
    some ("unsupported SMTP port: " ++ toString req.smtp_port ++ " (supported: 25, 587, 465)")
  else if !(req.«to».data.contains '@') then some "invalid recipient email address"
  else if !(req.username.data.contains '@') then some "invalid sender email address"
  else none

end V2

namespace Models

/-- Shape of the JSON value found under `smtp_port` by the custom
`UnmarshalJSON`.  `encoding/json` decodes every JSON number into `float64`
(modelled as a rational) and every JSON string into `string`; everything
else reaches the `default` branch. -/
inductive JsonValue where
  | num (q : Rat)
  | str (s : String)
  | other
deriving DecidableEq

/-- Digit run parser backing `goAtoi`. -/
def digitsToNat : List Char → Option Nat
  | [] => none
  | cs => if cs.all Char.isDigit then some (cs.foldl (fun n c => 10 * n + (c.toNat - 48)) 0) else none

/-- `strconv.Atoi`: optional sign followed by at least one digit; anything
else is an error (the int-range check is out of scope — relay ports are
small). -/
def goAtoi (s : String) : Option Int :=
  match s.data with
  | '+' :: rest => (digitsToNat rest).map Int.ofNat
  | '-' :: rest => (digitsToNat rest).map (fun n => -(n : Int))
  | cs => (digitsToNat cs).map Int.ofNat

/-- Go's `int(v)` conversion from `float64`: truncation toward zero. -/
def intOfFloat (q : Rat) : Int :=
  q.num.tdiv q.den

/-- The `switch` of `EmailRequest.UnmarshalJSON` on the dynamic `smtp_port`
value: strings go through `strconv.Atoi`, numbers are truncated with
`int(v)`, anything else is rejected. -/
def unmarshalSMTPPort : JsonValue → Except String Int
  | .str v =>
    match goAtoi v with
    | some n => .ok n
    | none => .error ("invalid smtp_port: strconv.Atoi: parsing \x22" ++ v ++ "\x22: invalid syntax")
  | .num v => .ok (intOfFloat v)
  | .other => .error "smtp_port must be a number"

end Models

/-- Validator following the rule order STATED BY THE SPEC (presence of the
six fields, then host pattern, then port membership, then the at-sign checks
on `username` and `to`), reusing the source's messages.  This definition
follows the spec's words, not the source, and exists only to be compared
with `V1.ValidateEmailRequest`. -/
def specOrderValidate (req : V1.EmailRequest) : Option String :=
  if req.smtp_host = "" then some "smtp_host is required"
  else if req.smtp_port = "" then some "smtp_port is required"
  else if req.username = "" then some "username is required"
  else if req.password = "" then some "password is required"
  else if req.«to» = "" then some "to is required"
  else if req.subject = "" then some "subject is required"
  else if !(req.smtp_host.data.contains '.') then some "invalid SMTP host format"
  else if req.smtp_port ≠ "25" ∧ req.smtp_port ≠ "587" ∧ req.smtp_port ≠ "465" then
    some "invalid SMTP port. Use 25, 587, or 465"
  else if !(req.username.data.contains '@') then some "invalid sender email address"
  else if !(req.«to».data.contains '@') then some "invalid email address format"
  else none

/-- The rule order the string-port validator actually implements: presence of
the six fields, then the recipient at-sign, then the host dot, then port
membership — and no username rule at all. -/
def rulesV1 : List ((V1.EmailRequest → Bool) × (V1.EmailRequest → String)) :=
  [ (fun r => decide (r.smtp_host = ""), fun _ => "smtp_host is required"),
    (fun r => decide (r.smtp_port = ""), fun _ => "smtp_port is required"),
    (fun r => decide (r.username = ""), fun _ => "username is required"),
    (fun r => decide (r.password = ""), fun _ => "password is required"),
    (fun r => decide (r.«to» = ""), fun _ => "to is required"),
    (fun r => decide (r.subject = ""), fun _ => "subject is required"),
    (fun r => !(r.«to».data.contains '@'), fun _ => "invalid email address format"),
    (fun r => !(r.smtp_host.data.contains '.'), fun _ => "invalid SMTP host format"),
    (fun r => decide (r.smtp_port ≠ "25" ∧ r.smtp_port ≠ "587" ∧ r.smtp_port ≠ "465"),
      fun _ => "invalid SMTP port. Use 25, 587, or 465") ]

/-- The rule order the integer-port validator actually implements: presence
of seven fields (including `body`), then the host dot, then port membership,
then the recipient at-sign, then the sender at-sign. -/
def rulesV2 : List ((V2.EmailRequest → Bool) × (V2.EmailRequest → String)) :=
  [ (fun r => decide (r.smtp_host = ""), fun _ => "smtp_host is required"),
    (fun r => decide (r.smtp_port = 0), fun _ => "smtp_port is required"),
    (fun r => decide (r.username = ""), fun _ => "username is required"),
    (fun r => decide (r.password = ""), fun _ => "password is required"),
    (fun r => decide (r.«to» = ""), fun _ => "to is required"),
    (fun r => decide (r.subject = ""), fun _ => "subject is required"),
    (fun r => decide (r.body = ""), fun _ => "body is required"),
    (fun r => !(r.smtp_host.data.contains '.'), fun _ => "invalid SMTP host format"),
    (fun r => !([25, 587, 465].contains r.smtp_port),
      fun r => "unsupported SMTP port: " ++ toString r.smtp_port ++ " (supported: 25, 587, 465)"),
    (fun r => !(r.«to».data.contains '@'), fun _ => "invalid recipient email address"),
    (fun r => !(r.username.data.contains '@'), fun _ => "invalid sender email address") ]

/-- A request passes the string-port validator exactly when every rule of its
if-chain holds. -/
theorem V1.validateEmailRequest_eq_none_iff (req : V1.EmailRequest) :
    V1.ValidateEmailRequest req = none ↔
      req.smtp_host ≠ "" ∧ req.smtp_port ≠ "" ∧ req.username ≠ "" ∧ req.password ≠ "" ∧
      req.«to» ≠ "" ∧ req.subject ≠ "" ∧ req.«to».data.contains '@' = true ∧
      req.smtp_host.data.contains '.' = true ∧
      (req.smtp_port = "25" ∨ req.smtp_port = "587" ∨ req.smtp_port = "465") := by
  unfold V1.ValidateEmailRequest
  split_ifs with h1 h2 h3 h4 h5 h6 h7 h8 h9 <;> simp_all
  tauto

/-- A request can pass the integer-port validator only with a port in the
allowed set. -/
theorem V2.validateEmailRequest_none_port (req : V2.EmailRequest) :
    V2.ValidateEmailRequest req = none →
      req.smtp_port = 25 ∨ req.smtp_port = 587 ∨ req.smtp_port = 465 := by
  unfold V2.ValidateEmailRequest
  intro hn
  by_cases c1 : req.smtp_host = "" <;> simp [c1] at hn
  by_cases c2 : req.smtp_port = 0 <;> simp [c2] at hn
  by_cases c3 : req.username = "" <;> simp [c3] at hn
  by_cases c4 : req.password = "" <;> simp [c4] at hn
  by_cases c5 : req.«to» = "" <;> simp [c5] at hn
  by_cases c6 : req.subject = "" <;> simp [c6] at hn
  by_cases c7 : req.body = "" <;> simp [c7] at hn
  by_cases c8 : '.' ∈ req.smtp_host.data <;> simp [c8] at hn
  by_cases c9 : ¬req.smtp_port = 25 ∧ ¬req.smtp_port = 587 ∧ ¬req.smtp_port = 465
  · simp [c9] at hn
  · tauto

/-- Counterexample to C1 as stated: on port 25 against a server that
advertises STARTTLS, `smtp.SendMail` upgrades the connection, so the relay
does not speak SMTP in cleartext — the exhibited transport-security mode is
STARTTLS, not the cleartext mode, and it is not a function of the port
alone. -/
theorem port25_starttls_counterexample :
    V1.securityMode
        (V1.SendEmail ⟨"smtp.example.com", "25", "u@e.com", "pw", "d@e.com", "Hi", "B"⟩ true) =
      V1.TransportMode.starttls ∧
    V1.securityMode
        (V1.SendEmail ⟨"smtp.example.com", "25", "u@e.com", "pw", "d@e.com", "Hi", "B"⟩ true) ≠
      V1.TransportMode.plain := by
  decide

/-- Claim C1 as amended: the code path is selected purely from `smtp_port` —
465 opens a TLS-wrapped connection before any SMTP traffic and never issues
STARTTLS, 587 opens plain TCP and upgrades via STARTTLS before
authenticating, and any other port than 25/587/465 yields the
unsupported-port error with no connection attempted.  Port 25 opens plain
TCP and, because `smtp.SendMail` upgrades opportunistically, performs a
STARTTLS upgrade exactly when the server advertises the extension, speaking
cleartext only otherwise — so the exhibited mode on port 25 also depends on
the server, not on the port alone. -/
theorem transport_mode_selection (req : V1.EmailRequest) (starttlsAdvertised : Bool) :
    V1.securityMode (V1.SendEmail req starttlsAdvertised) =
      (if req.smtp_port = "25" ∧ starttlsAdvertised = true then V1.TransportMode.starttls
       else V1.transportForPort req.smtp_port) ∧
    (req.smtp_port = "465" →
      ∃ rest, V1.SendEmail req starttlsAdvertised =
        .ok (.tlsConnect req.smtp_host req.smtp_port :: rest) ∧
        rest.any V1.isStartTlsEvent = false) ∧
    (req.smtp_port = "587" →
      ∃ rest, V1.SendEmail req starttlsAdvertised =
        .ok (.tcpConnect req.smtp_host req.smtp_port :: .startTls req.smtp_host ::
          .authPlain req.username req.password req.smtp_host :: rest)) ∧
    (req.smtp_port = "25" →
      ∃ t, V1.SendEmail req starttlsAdvertised = .ok t ∧
        t.head? = some (.tcpConnect req.smtp_host req.smtp_port) ∧
        t.any V1.isTlsConnectEvent = false ∧
        t.any V1.isStartTlsEvent = starttlsAdvertised) ∧
    (req.smtp_port ≠ "465" → req.smtp_port ≠ "587" → req.smtp_port ≠ "25" →
      V1.SendEmail req starttlsAdvertised =
        .error ("unsupported port: " ++ req.smtp_port)) := by
  refine ⟨?_, fun h465 => ?_, fun h587 => ?_, fun h25 => ?_, fun hn1 hn2 hn3 => ?_⟩
  · unfold V1.SendEmail V1.transportForPort
    cases starttlsAdvertised <;> split_ifs <;>
      simp_all [V1.securityMode, V1.sendEmailSMTPS, V1.sendEmailSTARTTLS, V1.sendEmailPlain,
        V1.isStartTlsEvent]
  · refine ⟨[.authPlain req.username req.password req.smtp_host, .mailFrom req.username,
      .rcptTo req.«to», .dataMsg (V1.buildMessage req), .quit], ?_, ?_⟩
    · simp [V1.SendEmail, h465, V1.sendEmailSMTPS]
    · simp [V1.isStartTlsEvent]
  · refine ⟨[.mailFrom req.username, .rcptTo req.«to», .dataMsg (V1.buildMessage req),
      .quit], ?_⟩
    simp [V1.SendEmail, h587, V1.sendEmailSTARTTLS]
  · refine ⟨V1.sendEmailPlain req (V1.buildMessage req) starttlsAdvertised, ?_, ?_, ?_, ?_⟩
    · simp [V1.SendEmail, h25]
    · cases starttlsAdvertised <;> simp [V1.sendEmailPlain]
    · cases starttlsAdvertised <;> simp [V1.sendEmailPlain, V1.isTlsConnectEvent]
    · cases starttlsAdvertised <;> simp [V1.sendEmailPlain, V1.isStartTlsEvent]
  · simp [V1.SendEmail, hn1, hn2, hn3]

/-- Witness for C1 (amended) at one concrete request per port branch,
covering both server behaviors on port 25. -/
theorem transport_mode_selection_witness :
    (∃ rest, V1.SendEmail ⟨"smtp.example.com", "465", "u@e.com", "pw", "d@e.com", "Hi", "B"⟩
        false =
      .ok (.tlsConnect "smtp.example.com" "465" :: rest) ∧
      rest.any V1.isStartTlsEvent = false) ∧
    (∃ rest, V1.SendEmail ⟨"smtp.example.com", "587", "u@e.com", "pw", "d@e.com", "Hi", "B"⟩
        false =
      .ok (.tcpConnect "smtp.example.com" "587" :: .startTls "smtp.example.com" ::
        .authPlain "u@e.com" "pw" "smtp.example.com" :: rest)) ∧
    (∃ t, V1.SendEmail ⟨"smtp.example.com", "25", "u@e.com", "pw", "d@e.com", "Hi", "B"⟩
        false = .ok t ∧
      t.head? = some (.tcpConnect "smtp.example.com" "25") ∧
      t.any V1.isTlsConnectEvent = false ∧ t.any V1.isStartTlsEvent = false) ∧
    (∃ t, V1.SendEmail ⟨"smtp.example.com", "25", "u@e.com", "pw", "d@e.com", "Hi", "B"⟩
        true = .ok t ∧
      t.head? = some (.tcpConnect "smtp.example.com" "25") ∧
      t.any V1.isTlsConnectEvent = false ∧ t.any V1.isStartTlsEvent = true) ∧
    V1.SendEmail ⟨"smtp.example.com", "8025", "u@e.com", "pw", "d@e.com", "Hi", "B"⟩ false =
      .error ("unsupported port: " ++ "8025") :=
  ⟨(transport_mode_selection _ false).2.1 rfl,
   (transport_mode_selection _ false).2.2.1 rfl,
   (transport_mode_selection _ false).2.2.2.1 rfl,
   (transport_mode_selection _ true).2.2.2.1 rfl,
   (transport_mode_selection _ false).2.2.2.2 (by decide) (by decide) (by decide)⟩

/-- Claim C3: once the worker's elapsed time exceeds the 30-second deadline,
the `select` in `SendEmail` answers with the fixed timeout error — never
success — whatever the worker's own outcome at that point was. -/
theorem sendEmail_timeout_exceeded (req : V1.EmailRequest) (elapsedMs : Nat)
    (opErr : Option String) (h : elapsedMs > V1.timeoutLimitMs) :
    (V1.SendEmailAt req elapsedMs opErr).1 = some "SMTP connection timeout after 30 seconds" ∧
    (V1.SendEmailAt req elapsedMs opErr).1 ≠ none := by
  unfold V1.SendEmailAt V1.SendEmailRun
  simp [h]

/-- Witness for C3 just past the deadline. -/
theorem sendEmail_timeout_exceeded_witness :
    30001 > V1.timeoutLimitMs ∧
    ((V1.SendEmailAt ⟨"smtp.example.com", "587", "u@e.com", "pw", "d@e.com", "Hi", "B"⟩
        30001 none).1 = some "SMTP connection timeout after 30 seconds" ∧
      (V1.SendEmailAt ⟨"smtp.example.com", "587", "u@e.com", "pw", "d@e.com", "Hi", "B"⟩
        30001 none).1 ≠ none) :=
  ⟨by decide, sendEmail_timeout_exceeded _ 30001 none (by decide)⟩

/-- Claim C5: every validated request is relayed with envelope sender
`username`, envelope recipient `to`, and a DATA payload that is exactly the
`To` header, `Subject` header, blank line and the body verbatim — whatever
the server's STARTTLS advertisement on the port-25 path. -/
theorem relay_envelope_and_payload (req : V1.EmailRequest) (starttlsAdvertised : Bool)
    (h : V1.ValidateEmailRequest req = none) :
    ∃ t, V1.SendEmail req starttlsAdvertised = .ok t ∧
      V1.envelopeSender t = some req.username ∧
      V1.envelopeRecipient t = some req.«to» ∧
      V1.dataPayload t =
        some ("To: " ++ req.«to» ++ "\r\nSubject: " ++ req.subject ++ "\r\n\r\n" ++ req.body) := by
  have hp := ((V1.validateEmailRequest_eq_none_iff req).mp h).2.2.2.2.2.2.2.2
  rcases hp with h25 | h587 | h465
  · exact ⟨V1.sendEmailPlain req (V1.buildMessage req) starttlsAdvertised,
      by simp [V1.SendEmail, h25],
      by cases starttlsAdvertised <;> simp [V1.sendEmailPlain, V1.envelopeSender],
      by cases starttlsAdvertised <;> simp [V1.sendEmailPlain, V1.envelopeRecipient],
      by cases starttlsAdvertised <;>
        simp [V1.sendEmailPlain, V1.dataPayload, V1.buildMessage]⟩
  · exact ⟨V1.sendEmailSTARTTLS req (V1.buildMessage req),
      by simp [V1.SendEmail, h587],
      by simp [V1.sendEmailSTARTTLS, V1.envelopeSender],
      by simp [V1.sendEmailSTARTTLS, V1.envelopeRecipient],
      by simp [V1.sendEmailSTARTTLS, V1.dataPayload, V1.buildMessage]⟩
  · exact ⟨V1.sendEmailSMTPS req (V1.buildMessage req),
      by simp [V1.SendEmail, h465],
      by simp [V1.sendEmailSMTPS, V1.envelopeSender],
      by simp [V1.sendEmailSMTPS, V1.envelopeRecipient],
      by simp [V1.sendEmailSMTPS, V1.dataPayload, V1.buildMessage]⟩

/-- Witness for C5 at a concrete validated request. -/
theorem relay_envelope_and_payload_witness :
    V1.ValidateEmailRequest ⟨"smtp.example.com", "587", "u@e.com", "pw", "d@e.com", "Hi", "B"⟩ =
      none ∧
    ∃ t, V1.SendEmail ⟨"smtp.example.com", "587", "u@e.com", "pw", "d@e.com", "Hi", "B"⟩
        false = .ok t ∧
      V1.envelopeSender t = some "u@e.com" ∧
      V1.envelopeRecipient t = some "d@e.com" ∧
      V1.dataPayload t = some ("To: " ++ "d@e.com" ++ "\r\nSubject: " ++ "Hi" ++ "\r\n\r\n" ++ "B") :=
  ⟨by decide, relay_envelope_and_payload _ false (by decide)⟩

/-- Counterexample to C2 as stated: a request whose port is outside
{25, 587, 465} but whose `smtp_host` is empty is rejected with the
`smtp_host` message, which does not name the supported port set. -/
theorem port_rejection_counterexample :
    ¬ ∃ e, V1.ValidateEmailRequest ⟨"", "2525", "u@e.com", "pw", "d@e.com", "Hi", "B"⟩ =
        some e ∧ mentionsSupportedPorts e = true := by
  rintro ⟨e, he, hm⟩
  have hv : V1.ValidateEmailRequest ⟨"", "2525", "u@e.com", "pw", "d@e.com", "Hi", "B"⟩ =
      some "smtp_host is required" := by decide
  rw [hv] at he
  cases he
  exact absurd hm (by decide)

/-- C2 as amended: a port outside {25, 587, 465} always fails validation and
the relay is never invoked; whenever every earlier validation rule passes,
the resulting message is the port error, which names the supported set.
(The `V2` conjuncts state the same for the integer-port validator, whose
port message carries a fixed suffix naming the set.) -/
theorem port_rejection (req : V1.EmailRequest) (reqI : V2.EmailRequest)
    (clientIP userAgent : String) (dialErr : Option String) (timedOut : Bool)
    (opErr : Option String)
    (hp1 : req.smtp_port ≠ "25") (hp2 : req.smtp_port ≠ "587") (hp3 : req.smtp_port ≠ "465")
    (hq1 : reqI.smtp_port ≠ 25) (hq2 : reqI.smtp_port ≠ 587) (hq3 : reqI.smtp_port ≠ 465) :
    V1.ValidateEmailRequest req ≠ none ∧
    (V1.HandleSendEmail clientIP userAgent req dialErr timedOut opErr).relayInvoked = false ∧
    (req.smtp_host ≠ "" → req.smtp_port ≠ "" → req.username ≠ "" → req.password ≠ "" →
      req.«to» ≠ "" → req.subject ≠ "" → req.«to».data.contains '@' = true →
      req.smtp_host.data.contains '.' = true →
      V1.ValidateEmailRequest req = some "invalid SMTP port. Use 25, 587, or 465" ∧
      mentionsSupportedPorts "invalid SMTP port. Use 25, 587, or 465" = true) ∧
    V2.ValidateEmailRequest reqI ≠ none ∧
    (reqI.smtp_host ≠ "" → reqI.smtp_port ≠ 0 → reqI.username ≠ "" → reqI.password ≠ "" →
      reqI.«to» ≠ "" → reqI.subject ≠ "" → reqI.body ≠ "" →
      reqI.smtp_host.data.contains '.' = true →
      V2.ValidateEmailRequest reqI =
        some ("unsupported SMTP port: " ++ toString reqI.smtp_port ++
          " (supported: 25, 587, 465)") ∧
      mentionsSupportedPorts " (supported: 25, 587, 465)" = true) := by
  have hvne : V1.ValidateEmailRequest req ≠ none := by
    intro hn
    rcases ((V1.validateEmailRequest_eq_none_iff req).mp hn).2.2.2.2.2.2.2.2 with h | h | h
    · exact hp1 h
    · exact hp2 h
    · exact hp3 h
  refine ⟨hvne, ?_, ?_, ?_, ?_⟩
  · obtain ⟨e, he⟩ := Option.ne_none_iff_exists'.mp hvne
    simp [V1.HandleSendEmail, he]
  · intro h1 h2 h3 h4 h5 h6 h7 h8
    have h7m : '@' ∈ req.«to».data := by simpa using h7
    have h8m : '.' ∈ req.smtp_host.data := by simpa using h8
    refine ⟨?_, by decide⟩
    simp [V1.ValidateEmailRequest, h1, h2, h3, h4, h5, h6, h7m, h8m, hp1, hp2, hp3]
  · intro hn
    rcases V2.validateEmailRequest_none_port reqI hn with h | h | h
    · exact hq1 h
    · exact hq2 h
    · exact hq3 h
  · intro h1 h2 h3 h4 h5 h6 h7 h8
    refine ⟨?_, by decide⟩
    unfold V2.ValidateEmailRequest
    rw [if_neg h1, if_neg h2, if_neg h3, if_neg h4, if_neg h5, if_neg h6, if_neg h7,
      if_neg (by simpa using h8), if_pos (by simp [hq1, hq2, hq3])]

/-- Witness for C2 (amended) at otherwise-valid requests carrying port 2525. -/
theorem port_rejection_witness :
    V1.ValidateEmailRequest ⟨"smtp.example.com", "2525", "u@e.com", "pw", "d@e.com", "Hi", "B"⟩ ≠
      none ∧
    (V1.HandleSendEmail "1.2.3.4" "curl"
      ⟨"smtp.example.com", "2525", "u@e.com", "pw", "d@e.com", "Hi", "B"⟩
      none false none).relayInvoked = false ∧
    ("smtp.example.com" ≠ "" → "2525" ≠ "" → "u@e.com" ≠ "" → "pw" ≠ "" →
      "d@e.com" ≠ "" → "Hi" ≠ "" → "d@e.com".data.contains '@' = true →
      "smtp.example.com".data.contains '.' = true →
      V1.ValidateEmailRequest ⟨"smtp.example.com", "2525", "u@e.com", "pw", "d@e.com", "Hi", "B"⟩ =
        some "invalid SMTP port. Use 25, 587, or 465" ∧
      mentionsSupportedPorts "invalid SMTP port. Use 25, 587, or 465" = true) ∧
    V2.ValidateEmailRequest ⟨"smtp.example.com", 2525, "u@e.com", "pw", "d@e.com", "Hi", "B"⟩ ≠
      none ∧
    ("smtp.example.com" ≠ "" → (2525 : Int) ≠ 0 → "u@e.com" ≠ "" → "pw" ≠ "" →
      "d@e.com" ≠ "" → "Hi" ≠ "" → "B" ≠ "" →
      "smtp.example.com".data.contains '.' = true →
      V2.ValidateEmailRequest ⟨"smtp.example.com", 2525, "u@e.com", "pw", "d@e.com", "Hi", "B"⟩ =
        some ("unsupported SMTP port: " ++ toString (2525 : Int) ++
          " (supported: 25, 587, 465)") ∧
      mentionsSupportedPorts " (supported: 25, 587, 465)" = true) :=
  port_rejection _ _ "1.2.3.4" "curl" none false none
    (by decide) (by decide) (by decide) (by decide) (by decide) (by decide)

/-- Claim C4: the handler's HTTP mapping — validation failures and pre-flight
connection failures answer 400 with `success:false`; relay failures
(including timeouts) answer 500 with `success:false`; a successful relay
answers 200 with `success:true` and the fixed message.  The model returns
exactly one response per request, and `success` is `true` exactly on the 200
path. -/
theorem handler_http_mapping (clientIP userAgent : String) (req : V1.EmailRequest)
    (dialErr : Option String) (timedOut : Bool) (opErr : Option String) :
    (∀ e, V1.ValidateEmailRequest req = some e →
      (V1.HandleSendEmail clientIP userAgent req dialErr timedOut opErr).status = 400 ∧
      (V1.HandleSendEmail clientIP userAgent req dialErr timedOut opErr).response =
        ⟨false, e⟩ ∧
      (V1.HandleSendEmail clientIP userAgent req dialErr timedOut opErr).relayInvoked = false) ∧
    (∀ e, V1.ValidateEmailRequest req = none →
      (V1.TestSMTPConnection req dialErr).1 = some e →
      (V1.HandleSendEmail clientIP userAgent req dialErr timedOut opErr).status = 400 ∧
      (V1.HandleSendEmail clientIP userAgent req dialErr timedOut opErr).response =
        ⟨false, "SMTP connection failed: " ++ e⟩) ∧
    (∀ e, V1.ValidateEmailRequest req = none →
      (V1.TestSMTPConnection req dialErr).1 = none →
      (V1.SendEmailRun req timedOut opErr).1 = some e →
      (V1.HandleSendEmail clientIP userAgent req dialErr timedOut opErr).status = 500 ∧
      (V1.HandleSendEmail clientIP userAgent req dialErr timedOut opErr).response =
        ⟨false, "Failed to send email: " ++ e⟩) ∧
    (V1.ValidateEmailRequest req = none →
      (V1.TestSMTPConnection req dialErr).1 = none →
      (V1.SendEmailRun req timedOut opErr).1 = none →
      (V1.HandleSendEmail clientIP userAgent req dialErr timedOut opErr).status = 200 ∧
      (V1.HandleSendEmail clientIP userAgent req dialErr timedOut opErr).response =
        ⟨true, "Email sent successfully"⟩) ∧
    ((V1.HandleSendEmail clientIP userAgent req dialErr timedOut opErr).response.success =
        true ↔
      (V1.HandleSendEmail clientIP userAgent req dialErr timedOut opErr).status = 200) := by
  rcases hv : V1.ValidateEmailRequest req with _ | e
  · rcases ht : V1.TestSMTPConnection req dialErr with ⟨_ | te, tlogs⟩
    · rcases hs : V1.SendEmailRun req timedOut opErr with ⟨_ | se, slogs⟩
      · refine ⟨?_, ?_, ?_, ?_, ?_⟩ <;>
          simp [V1.HandleSendEmail, hv, ht, hs]
      · refine ⟨?_, ?_, ?_, ?_, ?_⟩ <;>
          simp [V1.HandleSendEmail, hv, ht, hs]
    · refine ⟨?_, ?_, ?_, ?_, ?_⟩ <;>
        simp [V1.HandleSendEmail, hv, ht]
  · refine ⟨?_, ?_, ?_, ?_, ?_⟩ <;>
      simp [V1.HandleSendEmail, hv]

/-- Witness for C4 on the success path of a concrete valid request. -/
theorem handler_http_mapping_witness :
    V1.ValidateEmailRequest ⟨"smtp.example.com", "587", "u@e.com", "pw", "d@e.com", "Hi", "B"⟩ =
      none ∧
    (V1.HandleSendEmail "1.2.3.4" "curl"
        ⟨"smtp.example.com", "587", "u@e.com", "pw", "d@e.com", "Hi", "B"⟩
        none false none).status = 200 ∧
    (V1.HandleSendEmail "1.2.3.4" "curl"
        ⟨"smtp.example.com", "587", "u@e.com", "pw", "d@e.com", "Hi", "B"⟩
        none false none).response = ⟨true, "Email sent successfully"⟩ :=
  ⟨by decide,
   (handler_http_mapping "1.2.3.4" "curl" _ none false none).2.2.2.1
     (by decide) (by decide) (by decide)⟩

/-- Counterexample to C6 as stated: the string-port validator accepts a
request whose `username` contains no at-sign. -/
theorem username_at_counterexample :
    V1.ValidateEmailRequest
        ⟨"smtp.example.com", "587", "bob", "pw", "alice@example.com", "Hi", "Hello"⟩ = none ∧
    "bob".data.contains '@' = false := by
  decide

/-- C6 as amended: both validators reject a recipient without an at-sign
with an address-format error; the integer-port validator additionally
rejects a sender without an at-sign, while the string-port validator never
inspects `username` beyond non-emptiness. -/
theorem address_shape_validation :
    (∀ r : V1.EmailRequest, r.smtp_host ≠ "" → r.smtp_port ≠ "" → r.username ≠ "" →
      r.password ≠ "" → r.«to» ≠ "" → r.subject ≠ "" → r.«to».data.contains '@' = false →
      V1.ValidateEmailRequest r = some "invalid email address format") ∧
    (∀ r : V2.EmailRequest, r.smtp_host ≠ "" → r.smtp_port ≠ 0 → r.username ≠ "" →
      r.password ≠ "" → r.«to» ≠ "" → r.subject ≠ "" → r.body ≠ "" →
      r.smtp_host.data.contains '.' = true →
      (r.smtp_port = 25 ∨ r.smtp_port = 587 ∨ r.smtp_port = 465) →
      r.«to».data.contains '@' = true → r.username.data.contains '@' = false →
      V2.ValidateEmailRequest r = some "invalid sender email address") := by
  constructor
  · intro r h1 h2 h3 h4 h5 h6 h7
    unfold V1.ValidateEmailRequest
    rw [if_neg h1, if_neg h2, if_neg h3, if_neg h4, if_neg h5, if_neg h6,
      if_pos (by simpa using h7)]
  · intro r h1 h2 h3 h4 h5 h6 h7 h8 h9 h10 h11
    unfold V2.ValidateEmailRequest
    rw [if_neg h1, if_neg h2, if_neg h3, if_neg h4, if_neg h5, if_neg h6, if_neg h7,
      if_neg (by simpa using h8), if_neg (by rcases h9 with h | h | h <;> simp [h]),
      if_neg (by simpa using h10), if_pos (by simpa using h11)]

/-- Witness for C6 (amended) at concrete rejected requests. -/
theorem address_shape_validation_witness :
    V1.ValidateEmailRequest ⟨"smtp.example.com", "587", "u@e.com", "pw", "bob", "Hi", "B"⟩ =
      some "invalid email address format" ∧
    V2.ValidateEmailRequest ⟨"smtp.example.com", 587, "bob", "pw", "d@e.com", "Hi", "B"⟩ =
      some "invalid sender email address" :=
  ⟨address_shape_validation.1 _ (by decide) (by decide) (by decide) (by decide) (by decide)
      (by decide) (by decide),
   address_shape_validation.2 _ (by decide) (by decide) (by decide) (by decide) (by decide)
      (by decide) (by decide) (by decide) (by decide) (by decide) (by decide)⟩

/-- Counterexample to C7 as stated: the string-port validator accepts an
otherwise-valid request with an empty body, and the handler proceeds to the
relay for it. -/
theorem body_required_counterexample :
    V1.ValidateEmailRequest ⟨"smtp.example.com", "587", "u@e.com", "pw", "d@e.com", "Hi", ""⟩ =
      none ∧
    (V1.HandleSendEmail "1.2.3.4" "curl"
      ⟨"smtp.example.com", "587", "u@e.com", "pw", "d@e.com", "Hi", ""⟩
      none false none).relayInvoked = true := by
  decide

/-- C7 as amended: the integer-port validator rejects an empty body with
`body is required`; the string-port validator never reads `body`, so its
verdict is unchanged by any body value. -/
theorem body_requirement :
    (∀ r : V2.EmailRequest, r.smtp_host ≠ "" → r.smtp_port ≠ 0 → r.username ≠ "" →
      r.password ≠ "" → r.«to» ≠ "" → r.subject ≠ "" → r.body = "" →
      V2.ValidateEmailRequest r = some "body is required") ∧
    (∀ (r : V1.EmailRequest) (b : String),
      V1.ValidateEmailRequest { r with body := b } = V1.ValidateEmailRequest r) := by
  constructor
  · intro r h1 h2 h3 h4 h5 h6 h7
    unfold V2.ValidateEmailRequest
    rw [if_neg h1, if_neg h2, if_neg h3, if_neg h4, if_neg h5, if_neg h6, if_pos h7]
  · intro r b
    rfl

/-- Witness for C7 (amended) at concrete requests. -/
theorem body_requirement_witness :
    V2.ValidateEmailRequest ⟨"smtp.example.com", 587, "u@e.com", "pw", "d@e.com", "Hi", ""⟩ =
      some "body is required" ∧
    V1.ValidateEmailRequest
        { (⟨"smtp.example.com", "587", "u@e.com", "pw", "d@e.com", "Hi", "B"⟩ :
            V1.EmailRequest) with body := "other" } =
      V1.ValidateEmailRequest ⟨"smtp.example.com", "587", "u@e.com", "pw", "d@e.com", "Hi", "B"⟩ :=
  ⟨body_requirement.1 _ (by decide) (by decide) (by decide) (by decide) (by decide)
      (by decide) (by decide),
   body_requirement.2 _ "other"⟩

/-- Counterexample to C8 as stated: on a request violating both the
host-pattern rule and the recipient at-sign rule, the spec-ordered validator
reports the host error first, but the source validator reports the
address-format error — the source checks the recipient at-sign before the
host pattern and the port. -/
theorem validation_order_counterexample :
    V1.ValidateEmailRequest ⟨"localhost", "587", "u@e.com", "pw", "bob", "Hi", "B"⟩ =
      some "invalid email address format" ∧
    specOrderValidate ⟨"localhost", "587", "u@e.com", "pw", "bob", "Hi", "B"⟩ =
      some "invalid SMTP host format" ∧
    V1.ValidateEmailRequest ⟨"localhost", "587", "u@e.com", "pw", "bob", "Hi", "B"⟩ ≠
      specOrderValidate ⟨"localhost", "587", "u@e.com", "pw", "bob", "Hi", "B"⟩ := by
  decide

/-- C8 as amended: each validator is first-failure-wins over its own explicit
rule order — the string-port variant checks the six presence rules, then the
recipient at-sign, then the host dot, then port membership (and never checks
`username`); the integer-port variant checks seven presence rules (with
`body`), then the host dot, then port membership, then the recipient and
sender at-signs. -/
theorem validation_rule_order :
    (∀ r : V1.EmailRequest, V1.ValidateEmailRequest r = firstError rulesV1 r) ∧
    (∀ r : V2.EmailRequest, V2.ValidateEmailRequest r = firstError rulesV2 r) := by
  constructor
  · intro r
    unfold V1.ValidateEmailRequest rulesV1
    simp only [firstError, decide_eq_true_eq]
  · intro r
    unfold V2.ValidateEmailRequest rulesV2
    simp only [firstError, decide_eq_true_eq]

/-- Claim C9 (noninterference form): with the network oracles fixed, the
handler's entire observable outcome — status, response body and every log
record — is unchanged when the password is replaced by any other non-empty
password.  The password therefore cannot occur in any of those outputs
except by coincidence with other fields. -/
theorem password_noninterference (clientIP userAgent : String) (req : V1.EmailRequest)
    (p1 p2 : String) (h1 : p1 ≠ "") (h2 : p2 ≠ "")
    (dialErr : Option String) (timedOut : Bool) (opErr : Option String) :
    V1.HandleSendEmail clientIP userAgent { req with password := p1 } dialErr timedOut opErr =
    V1.HandleSendEmail clientIP userAgent { req with password := p2 } dialErr timedOut opErr := by
  have hval : V1.ValidateEmailRequest { req with password := p1 } =
      V1.ValidateEmailRequest { req with password := p2 } := by
    unfold V1.ValidateEmailRequest
    simp [h1, h2]
  have htest : V1.TestSMTPConnection { req with password := p1 } dialErr =
      V1.TestSMTPConnection { req with password := p2 } dialErr := rfl
  have hsend : V1.SendEmailRun { req with password := p1 } timedOut opErr =
      V1.SendEmailRun { req with password := p2 } timedOut opErr := rfl
  unfold V1.HandleSendEmail
  rw [hval, htest, hsend]

/-- Witness for C9 at a concrete request and two concrete passwords. -/
theorem password_noninterference_witness :
    ("secret-one" : String) ≠ "" ∧
    V1.HandleSendEmail "1.2.3.4" "curl"
        { (⟨"smtp.example.com", "587", "u@e.com", "x", "d@e.com", "Hi", "B"⟩ :
            V1.EmailRequest) with password := "secret-one" } none false none =
      V1.HandleSendEmail "1.2.3.4" "curl"
        { (⟨"smtp.example.com", "587", "u@e.com", "x", "d@e.com", "Hi", "B"⟩ :
            V1.EmailRequest) with password := "secret-two" } none false none :=
  ⟨by decide,
   password_noninterference "1.2.3.4" "curl" _ "secret-one" "secret-two"
     (by decide) (by decide) none false none⟩

/-- Claim C10: `UnmarshalJSON` accepts any JSON number for `smtp_port`,
truncating toward zero (587.9 becomes 587, which then passes the integer
port validation), accepts numeric strings, and rejects exactly the
non-numeric strings and the non-number non-string values. -/
theorem smtp_port_unmarshal :
    Models.unmarshalSMTPPort (.num (mkRat 5879 10)) = .ok 587 ∧
    Models.unmarshalSMTPPort (.num (mkRat (-29) 10)) = .ok (-2) ∧
    (∀ q : Rat, Models.unmarshalSMTPPort (.num q) = .ok (Models.intOfFloat q)) ∧
    Models.unmarshalSMTPPort (.str "587") = .ok 587 ∧
    Models.unmarshalSMTPPort (.str "2525") = .ok 2525 ∧
    Models.unmarshalSMTPPort (.str "abc") =
      .error "invalid smtp_port: strconv.Atoi: parsing \x22abc\x22: invalid syntax" ∧
    Models.unmarshalSMTPPort .other = .error "smtp_port must be a number" ∧
    V2.ValidateEmailRequest ⟨"smtp.example.com", 587, "u@e.com", "pw", "d@e.com", "Hi", "B"⟩ =
      none :=
  ⟨rfl, rfl, fun _ => rfl, rfl, rfl, rfl, rfl, by decide⟩
